import Mathlib

/-!
Shallow embedding of `src/tusb_serial_device/main/cdc.h` (ESP-IDF tinyusb CDC
slot-table lifecycle module), together with theorems settling the claims about
its natural-language specification.

Modelling conventions:
* The global array `static esp_tusb_cdc_t *cdc_obj[CDC_INTF_NUM]` is embedded
  as a `List (Option EspTusbCdc)`; `none` is a NULL slot pointer.  The list's
  length plays the role of the compile-time constant `CDC_INTF_NUM`
  (= `CFG_TUD_CDC`, which comes from external build configuration and is not
  fixed in the source).
* C `int` indices are `Int`.  Reading `cdc_obj[itf]` out of bounds, or
  dereferencing a NULL slot pointer, is undefined behavior in C; the embedding
  makes every such access total by returning `none : Option _` ("undefined").
  Stateful functions hence return `Option (EspErr × CdcTable)`:
  `none` = undefined behavior reached, `some (e, s)` = the C function returns
  error code `e` with the global table now `s`.
* `calloc` may fail; the embedding threads an explicit `allocOk : Bool` oracle:
  `true` models a successful allocation (zero-initialized record), `false`
  models `calloc` returning NULL.
* `ESP_RETURN_ON_ERROR(x, ...)` expands to: evaluate `x`; if it is not
  `ESP_OK`, return it from the enclosing function.  It is inlined at each use.
-/

/-- Error codes of `esp_err_t` used by this module (`ESP_OK`, `ESP_FAIL`,
`ESP_ERR_INVALID_ARG`, `ESP_ERR_INVALID_STATE`). -/
inductive EspErr where
  | ESP_OK
  | ESP_FAIL
  | ESP_ERR_INVALID_ARG
  | ESP_ERR_INVALID_STATE
deriving DecidableEq

/-- USB class code `TUSB_CLASS_CDC` from the external tinyusb enum
`tusb_class_code_t` (standard USB class code for a CDC Communications
interface). -/
def TUSB_CLASS_CDC : Int := 2

/-- USB class code `TUSB_CLASS_CDC_DATA` from the external tinyusb enum
`tusb_class_code_t` (standard USB class code for a CDC Data interface). -/
def TUSB_CLASS_CDC_DATA : Int := 10

/-- The configuration struct `tinyusb_config_cdc_t`: `usb_dev` is the opaque
`tinyusb_usbdev_t` handle, `cdc_class` the `tusb_class_code_t`, and
`cdc_subclass` the value stored in the union of `comm_subclass`/`data_subclass`
(the two union members share storage, so one field models both variants). -/
structure TinyusbConfigCdc where
  usb_dev : Nat
  cdc_class : Int
  cdc_subclass : Nat
deriving DecidableEq

/-- The per-slot record `esp_tusb_cdc_t`: `usb_dev`, the stored class code
`type`, the subclass union value `cdc_subclass`, and the opaque
`subclass_obj` pointer (never allocated by this module; `none` is NULL). -/
structure EspTusbCdc where
  usb_dev : Nat
  type : Int
  cdc_subclass : Nat
  subclass_obj : Option Unit
deriving DecidableEq

/-- The global slot table `cdc_obj`: one optional record per interface slot,
`none` meaning a NULL pointer (Empty slot). -/
abbrev CdcTable := List (Option EspTusbCdc)

/-- Reading `cdc_obj[itf]`: defined (`some slot`) exactly when
`0 ≤ itf < CDC_INTF_NUM`; out-of-bounds access is undefined (`none`). -/
def slotRead (s : CdcTable) (itf : Int) : Option (Option EspTusbCdc) :=
  if 0 ≤ itf then s[itf.toNat]? else none

/-- Writing `cdc_obj[itf] = v`: defined exactly when the index is in bounds. -/
def slotWrite (s : CdcTable) (itf : Int) (v : Option EspTusbCdc) : Option CdcTable :=
  if 0 ≤ itf ∧ itf.toNat < s.length then some (s.set itf.toNat v) else none

/-- Dereferencing `cdc_obj[itf]->...`: undefined when the index is out of
bounds or the slot pointer is NULL. -/
def slotDeref (s : CdcTable) (itf : Int) : Option EspTusbCdc :=
  (slotRead s itf).bind fun slot => slot

/-- A C statement `cdc_obj[itf]->field = x;`: dereference the slot pointer and
update one field of the pointed-to record in place. -/
def cdcModify (s : CdcTable) (itf : Int) (f : EspTusbCdc → EspTusbCdc) : Option CdcTable :=
  (slotDeref s itf).bind fun obj => slotWrite s itf (some (f obj))

/-- Result of `calloc(1, sizeof(esp_tusb_cdc_t))`: a zero-initialized record
when allocation succeeds (`allocOk = true`), NULL otherwise. -/
def callocEspTusbCdc (allocOk : Bool) : Option EspTusbCdc :=
  if allocOk then some { usb_dev := 0, type := 0, cdc_subclass := 0, subclass_obj := none }
  else none

/-- Source `tinyusb_cdc_initialized`: `return (cdc_obj[itf] != NULL);`.
No bounds check: an out-of-bounds `itf` is undefined behavior (`none`). -/
def tinyusb_cdc_initialized (s : CdcTable) (itf : Int) : Option Bool :=
  (slotRead s itf).map fun slot => slot.isSome

/-- Source `cdc_interface_check`: `ESP_OK` when the slot is occupied, else
`ESP_ERR_INVALID_STATE` (plus a diagnostic log, which has no semantic effect). -/
def cdc_interface_check (s : CdcTable) (itf : Int) : Option EspErr :=
  (tinyusb_cdc_initialized s itf).map fun b =>
    if b then EspErr.ESP_OK else EspErr.ESP_ERR_INVALID_STATE

/-- Source `cdc_obj_check(itf, expected_inited, expected_type)`: the state
gate.  Reads `inited = (cdc_obj[itf] != NULL)`; mismatch with
`expected_inited` gives `ESP_ERR_INVALID_STATE`; otherwise, when the slot is
occupied, `expected_type != -1`, and the stored `type` differs, gives
`ESP_ERR_INVALID_ARG`; otherwise `ESP_OK`.  The C condition
`inited && (expected_type != -1) && !(cdc_obj[itf]->type == expected_type)`
short-circuits, so the dereference only happens when `inited`; the embedding
mirrors that by matching on the slot. -/
def cdc_obj_check (s : CdcTable) (itf : Int) (expected_inited : Bool)
    (expected_type : Int) : Option EspErr :=
  (slotRead s itf).bind fun slot =>
    let inited := slot.isSome
    if expected_inited ≠ inited then
      some EspErr.ESP_ERR_INVALID_STATE
    else
      match slot with
      | some obj =>
        if expected_type ≠ -1 ∧ obj.type ≠ expected_type then
          some EspErr.ESP_ERR_INVALID_ARG
        else
          some EspErr.ESP_OK
      | none => some EspErr.ESP_OK

/-- Source `tinyusb_cdc_get_intf`: NULL when `cdc_interface_check` fails,
otherwise the (borrowed) slot pointer `cdc_obj[itf_num]`. -/
def tinyusb_cdc_get_intf (s : CdcTable) (itf_num : Int) : Option (Option EspTusbCdc) :=
  (cdc_interface_check s itf_num).bind fun e =>
    if e ≠ EspErr.ESP_OK then some none
    else slotRead s itf_num

/-- Source `tusb_cdc_comm_init`: gate with `(false, -1)`, then
`cdc_obj[itf] = calloc(...)`; on success set `type = TUSB_CLASS_CDC` and
return `ESP_OK`, else return `ESP_FAIL`. -/
def tusb_cdc_comm_init (allocOk : Bool) (s : CdcTable) (itf : Int) :
    Option (EspErr × CdcTable) :=
  (cdc_obj_check s itf false (-1)).bind fun e =>
    if e ≠ EspErr.ESP_OK then some (e, s)
    else
      (slotWrite s itf (callocEspTusbCdc allocOk)).bind fun s1 =>
        match callocEspTusbCdc allocOk with
        | some _ =>
          (cdcModify s1 itf fun o => { o with type := TUSB_CLASS_CDC }).bind fun s2 =>
            some (EspErr.ESP_OK, s2)
        | none => some (EspErr.ESP_FAIL, s1)

/-- Source `tusb_cdc_deinit_comm`: gate with `(true, TUSB_CLASS_CDC)`, then
`free(cdc_obj[itf]); cdc_obj[itf] = NULL;` and return `ESP_OK`. -/
def tusb_cdc_deinit_comm (s : CdcTable) (itf : Int) : Option (EspErr × CdcTable) :=
  (cdc_obj_check s itf true TUSB_CLASS_CDC).bind fun e =>
    if e ≠ EspErr.ESP_OK then some (e, s)
    else
      (slotWrite s itf none).bind fun s1 =>
        some (EspErr.ESP_OK, s1)

/-- Source `tusb_cdc_data_init`: gate with `(false, TUSB_CLASS_CDC_DATA)`,
then allocate; on success set `type = TUSB_CLASS_CDC_DATA`. -/
def tusb_cdc_data_init (allocOk : Bool) (s : CdcTable) (itf : Int) :
    Option (EspErr × CdcTable) :=
  (cdc_obj_check s itf false TUSB_CLASS_CDC_DATA).bind fun e =>
    if e ≠ EspErr.ESP_OK then some (e, s)
    else
      (slotWrite s itf (callocEspTusbCdc allocOk)).bind fun s1 =>
        match callocEspTusbCdc allocOk with
        | some _ =>
          (cdcModify s1 itf fun o => { o with type := TUSB_CLASS_CDC_DATA }).bind fun s2 =>
            some (EspErr.ESP_OK, s2)
        | none => some (EspErr.ESP_FAIL, s1)

/-- Source `tusb_cdc_deinit_data`: gate with `(true, TUSB_CLASS_CDC_DATA)`,
then free the slot and return `ESP_OK`. -/
def tusb_cdc_deinit_data (s : CdcTable) (itf : Int) : Option (EspErr × CdcTable) :=
  (cdc_obj_check s itf true TUSB_CLASS_CDC_DATA).bind fun e =>
    if e ≠ EspErr.ESP_OK then some (e, s)
    else
      (slotWrite s itf none).bind fun s1 =>
        some (EspErr.ESP_OK, s1)

/-- Source `tinyusb_cdc_init(itf, cfg)`: reject `itf != 0` with
`ESP_ERR_INVALID_ARG`; dispatch on `cfg->cdc_class == TUSB_CLASS_CDC` to the
comm or data init helper (propagating its error via `ESP_RETURN_ON_ERROR`),
then store the subclass union value and `usb_dev` from `cfg` and return
`ESP_OK`.  The shared trailing assignment
`cdc_obj[itf]->usb_dev = cfg->usb_dev;` is duplicated into both branches. -/
def tinyusb_cdc_init (allocOk : Bool) (s : CdcTable) (itf : Int)
    (cfg : TinyusbConfigCdc) : Option (EspErr × CdcTable) :=
  if itf ≠ 0 then some (EspErr.ESP_ERR_INVALID_ARG, s)
  else if cfg.cdc_class = TUSB_CLASS_CDC then
    (tusb_cdc_comm_init allocOk s itf).bind fun r =>
      if r.1 ≠ EspErr.ESP_OK then some (r.1, r.2)
      else
        (cdcModify r.2 itf fun o => { o with cdc_subclass := cfg.cdc_subclass }).bind fun s2 =>
          (cdcModify s2 itf fun o => { o with usb_dev := cfg.usb_dev }).bind fun s3 =>
            some (EspErr.ESP_OK, s3)
  else
    (tusb_cdc_data_init allocOk s itf).bind fun r =>
      if r.1 ≠ EspErr.ESP_OK then some (r.1, r.2)
      else
        (cdcModify r.2 itf fun o => { o with cdc_subclass := cfg.cdc_subclass }).bind fun s2 =>
          (cdcModify s2 itf fun o => { o with usb_dev := cfg.usb_dev }).bind fun s3 =>
            some (EspErr.ESP_OK, s3)

/-- Source `tinyusb_cdc_deinit(itf)`: reject `itf != 0` with
`ESP_ERR_INVALID_ARG`, then dispatch on `cdc_obj[itf]->type` — note this
dereferences the slot pointer with no gate in between, so a NULL (Empty) slot
is undefined behavior — running the comm or data teardown for the two
recognized class codes and returning `ESP_ERR_INVALID_ARG` for any other
stored type. -/
def tinyusb_cdc_deinit (s : CdcTable) (itf : Int) : Option (EspErr × CdcTable) :=
  if itf ≠ 0 then some (EspErr.ESP_ERR_INVALID_ARG, s)
  else
    (slotDeref s itf).bind fun obj =>
      if obj.type = TUSB_CLASS_CDC then
        (tusb_cdc_deinit_comm s itf).bind fun r =>
          if r.1 ≠ EspErr.ESP_OK then some (r.1, r.2)
          else some (EspErr.ESP_OK, r.2)
      else if obj.type = TUSB_CLASS_CDC_DATA then
        (tusb_cdc_deinit_data s itf).bind fun r =>
          if r.1 ≠ EspErr.ESP_OK then some (r.1, r.2)
          else some (EspErr.ESP_OK, r.2)
      else some (EspErr.ESP_ERR_INVALID_ARG, s)

/-! ### Characterization lemmas (shared helpers) -/

/-- Reading slot 0 never fails the sign check. -/
theorem slotRead_zero (s : CdcTable) : slotRead s 0 = s[0]? := by
  simp [slotRead]

/-- A defined read of slot 0 means the table is non-empty. -/
theorem slotRead_length_pos {s : CdcTable} {slot : Option EspTusbCdc}
    (h : slotRead s 0 = some slot) : 0 < s.length := by
  rw [slotRead_zero] at h
  exact (List.getElem?_eq_some_iff.mp h).1

/-- Record stored in slot `itf` by a successful `tinyusb_cdc_init(itf, cfg)`:
class code from `cfg` (any class other than `TUSB_CLASS_CDC` takes the data
branch), subclass union value and device handle copied from `cfg`, and a NULL
`subclass_obj` left over from `calloc`'s zero-initialization. -/
def initObj (cfg : TinyusbConfigCdc) : EspTusbCdc :=
  { usb_dev := cfg.usb_dev
  , type := if cfg.cdc_class = TUSB_CLASS_CDC then TUSB_CLASS_CDC else TUSB_CLASS_CDC_DATA
  , cdc_subclass := cfg.cdc_subclass
  , subclass_obj := none }

/-- Full value-level description of `tinyusb_cdc_init` at index 0. -/
theorem tinyusb_cdc_init_zero_spec (allocOk : Bool) (s : CdcTable)
    (cfg : TinyusbConfigCdc) :
    tinyusb_cdc_init allocOk s 0 cfg =
      match s[0]? with
      | none => none
      | some (some _) => some (EspErr.ESP_ERR_INVALID_STATE, s)
      | some none =>
          if allocOk then some (EspErr.ESP_OK, s.set 0 (some (initObj cfg)))
          else some (EspErr.ESP_FAIL, s.set 0 none) := by
  rcases h0 : s[0]? with _ | (_ | obj)
  · by_cases hc : cfg.cdc_class = TUSB_CLASS_CDC <;>
      simp [tinyusb_cdc_init, tusb_cdc_comm_init, tusb_cdc_data_init,
        cdc_obj_check, slotRead, h0, hc]
  · have hlen : 0 < s.length := by
      rw [← slotRead_zero] at h0
      exact slotRead_length_pos h0
    by_cases hc : cfg.cdc_class = TUSB_CLASS_CDC <;>
      cases allocOk <;>
        simp [tinyusb_cdc_init, tusb_cdc_comm_init, tusb_cdc_data_init,
          cdc_obj_check, cdcModify, slotDeref, slotRead, slotWrite,
          callocEspTusbCdc, initObj, h0, hc, hlen, List.set_set]
  · by_cases hc : cfg.cdc_class = TUSB_CLASS_CDC <;>
      simp [tinyusb_cdc_init, tusb_cdc_comm_init, tusb_cdc_data_init,
        cdc_obj_check, slotRead, h0, hc]

/-- Full value-level description of `tinyusb_cdc_deinit` at index 0. -/
theorem tinyusb_cdc_deinit_zero_spec (s : CdcTable) :
    tinyusb_cdc_deinit s 0 =
      match s[0]? with
      | none => none
      | some none => none
      | some (some obj) =>
          if obj.type = TUSB_CLASS_CDC ∨ obj.type = TUSB_CLASS_CDC_DATA
          then some (EspErr.ESP_OK, s.set 0 none)
          else some (EspErr.ESP_ERR_INVALID_ARG, s) := by
  rcases h0 : s[0]? with _ | (_ | obj)
  · simp [tinyusb_cdc_deinit, slotDeref, slotRead, h0]
  · simp [tinyusb_cdc_deinit, slotDeref, slotRead, h0]
  · have hlen : 0 < s.length := by
      rw [← slotRead_zero] at h0
      exact slotRead_length_pos h0
    by_cases h2 : obj.type = TUSB_CLASS_CDC
    · simp [tinyusb_cdc_deinit, tusb_cdc_deinit_comm, cdc_obj_check,
        slotDeref, slotRead, slotWrite, h0, h2, hlen]
    · rw [TUSB_CLASS_CDC] at h2
      by_cases h10 : obj.type = TUSB_CLASS_CDC_DATA <;> rw [TUSB_CLASS_CDC_DATA] at h10 <;>
        simp [tinyusb_cdc_deinit, tusb_cdc_deinit_comm, tusb_cdc_deinit_data,
          cdc_obj_check, slotDeref, slotRead, slotWrite, h0, h2, h10, hlen,
          TUSB_CLASS_CDC, TUSB_CLASS_CDC_DATA]

/-- Any nonzero index is rejected by `tinyusb_cdc_init` before the table is
read or written. -/
theorem tinyusb_cdc_init_ne_zero (allocOk : Bool) (s : CdcTable) {itf : Int}
    (cfg : TinyusbConfigCdc) (h : itf ≠ 0) :
    tinyusb_cdc_init allocOk s itf cfg = some (EspErr.ESP_ERR_INVALID_ARG, s) := by
  simp [tinyusb_cdc_init, h]

/-- Any nonzero index is rejected by `tinyusb_cdc_deinit` before the table is
read or written. -/
theorem tinyusb_cdc_deinit_ne_zero (s : CdcTable) {itf : Int} (h : itf ≠ 0) :
    tinyusb_cdc_deinit s itf = some (EspErr.ESP_ERR_INVALID_ARG, s) := by
  simp [tinyusb_cdc_deinit, h]

/-- The query path returns exactly the slot pointer: errors of the existence
check collapse to NULL, which coincides with the Empty slot's own value. -/
theorem tinyusb_cdc_get_intf_eq_slotRead (s : CdcTable) (itf : Int) :
    tinyusb_cdc_get_intf s itf = slotRead s itf := by
  rcases h : slotRead s itf with _ | (_ | obj) <;>
    simp [tinyusb_cdc_get_intf, cdc_interface_check, tinyusb_cdc_initialized, h]

/-! ### Claims -/

/-- C1: the spec claims that calling Deinit(0) while slot 0 is Empty fails
with `InvalidState` and has no effect.  The code instead dereferences the NULL
slot pointer (`cdc_obj[0]->type`) to pick a teardown path before any gate
check runs, which is undefined behavior; in the total embedding the call is
undefined (`none`) rather than `some (ESP_ERR_INVALID_STATE, table)`. -/
theorem C1_deinit_empty_slot_null_deref :
    tinyusb_cdc_deinit [none] 0 = none ∧
      tinyusb_cdc_deinit [none] 0 ≠ some (EspErr.ESP_ERR_INVALID_STATE, [none]) := by
  decide

/-- C3: for every configuration and allocation outcome, Init(0, cfg) on an
Occupied slot 0 returns `ESP_ERR_INVALID_STATE` (so never
`ESP_ERR_INVALID_ARG`) and leaves the whole table — in particular the stored
Interface record — unchanged. -/
theorem C3_init_on_occupied_invalid_state (allocOk : Bool) (s : CdcTable)
    (cfg : TinyusbConfigCdc) (obj : EspTusbCdc)
    (h : slotRead s 0 = some (some obj)) :
    tinyusb_cdc_init allocOk s 0 cfg = some (EspErr.ESP_ERR_INVALID_STATE, s) := by
  rw [slotRead_zero] at h
  rw [tinyusb_cdc_init_zero_spec, h]

/-- Witness for C3 at a concrete occupied table. -/
theorem C3_init_on_occupied_invalid_state_witness :
    tinyusb_cdc_init true [some ⟨7, 2, 1, none⟩] 0 ⟨3, 10, 0⟩ =
      some (EspErr.ESP_ERR_INVALID_STATE, [some ⟨7, 2, 1, none⟩]) :=
  C3_init_on_occupied_invalid_state true [some ⟨7, 2, 1, none⟩] ⟨3, 10, 0⟩
    ⟨7, 2, 1, none⟩ (by decide)

/-- C4: for every index other than 0, any table state, any configuration and
any allocation outcome, both Init and Deinit return `ESP_ERR_INVALID_ARG` with
the table unchanged — the rejection happens before the table is touched. -/
theorem C4_bad_index_rejected_table_unchanged (allocOk : Bool) (s : CdcTable)
    (cfg : TinyusbConfigCdc) (itf : Int) (h : itf ≠ 0) :
    tinyusb_cdc_init allocOk s itf cfg = some (EspErr.ESP_ERR_INVALID_ARG, s) ∧
      tinyusb_cdc_deinit s itf = some (EspErr.ESP_ERR_INVALID_ARG, s) :=
  ⟨tinyusb_cdc_init_ne_zero allocOk s cfg h, tinyusb_cdc_deinit_ne_zero s h⟩

/-- Witness for C4 at index 1. -/
theorem C4_bad_index_rejected_table_unchanged_witness :
    tinyusb_cdc_init true [none] 1 ⟨7, 2, 1⟩ =
        some (EspErr.ESP_ERR_INVALID_ARG, [none]) ∧
      tinyusb_cdc_deinit [none] 1 = some (EspErr.ESP_ERR_INVALID_ARG, [none]) :=
  C4_bad_index_rejected_table_unchanged true [none] ⟨7, 2, 1⟩ 1 (by decide)

/-- C8: for every in-range index, GetInterface returns the NULL "not found"
sentinel exactly when the slot is Empty (every failure collapses to that one
signal), and on an Occupied slot it returns exactly the stored record — whose
class kind and subclass are what the successful Init stored — while the
function (by its read-only type) modifies no state. -/
theorem C8_get_intf_not_found_iff_empty (s : CdcTable) (itf : Int)
    (slot : Option EspTusbCdc) (h : slotRead s itf = some slot) :
    (tinyusb_cdc_get_intf s itf = some none ↔ slot = none) ∧
      (∀ obj, slot = some obj → tinyusb_cdc_get_intf s itf = some (some obj)) := by
  rw [tinyusb_cdc_get_intf_eq_slotRead, h]
  constructor
  · simp
  · intro obj ho
    rw [ho]

/-- Witness for C8 at a concrete occupied slot. -/
theorem C8_get_intf_not_found_iff_empty_witness :
    (tinyusb_cdc_get_intf [some ⟨7, 2, 1, none⟩] 0 = some none ↔
        (some ⟨7, 2, 1, none⟩ : Option EspTusbCdc) = none) ∧
      (∀ obj, (some ⟨7, 2, 1, none⟩ : Option EspTusbCdc) = some obj →
        tinyusb_cdc_get_intf [some ⟨7, 2, 1, none⟩] 0 = some (some obj)) :=
  C8_get_intf_not_found_iff_empty [some ⟨7, 2, 1, none⟩] 0 (some ⟨7, 2, 1, none⟩)
    (by decide)

/-- C10: for every index outside `[0, CDC_INTF_NUM)` (below zero or at least
the table length), the query operations `tinyusb_cdc_initialized` and
`tinyusb_cdc_get_intf` index the slot array out of bounds before any check can
reject the index: in the total embedding both reach the undefined
out-of-bounds branch (`none`) instead of returning `false` or the NULL
sentinel. -/
theorem C10_query_out_of_bounds_undefined (s : CdcTable) (itf : Int)
    (h : itf < 0 ∨ (s.length : Int) ≤ itf) :
    tinyusb_cdc_initialized s itf = none ∧ tinyusb_cdc_get_intf s itf = none := by
  have hs : slotRead s itf = none := by
    rcases h with h | h
    · simp [slotRead, not_le.mpr h]
    · have h0 : (0 : Int) ≤ itf := le_trans (Int.natCast_nonneg _) h
      have hge : s.length ≤ itf.toNat := by
        have := Int.toNat_of_nonneg h0
        omega
      simp [slotRead, h0, List.getElem?_eq_none hge]
  exact ⟨by simp [tinyusb_cdc_initialized, hs],
    by rw [tinyusb_cdc_get_intf_eq_slotRead, hs]⟩

/-- Witness for C10 at index 1 on a one-slot table. -/
theorem C10_query_out_of_bounds_undefined_witness :
    tinyusb_cdc_initialized [none] 1 = none ∧
      tinyusb_cdc_get_intf [none] 1 = none :=
  C10_query_out_of_bounds_undefined [none] 1 (by decide)

/-- Statement of claim C2 exactly as written: the gate returns
`ESP_ERR_INVALID_STATE` exactly when the slot's occupancy differs from
`expected_inited`, returns `ESP_ERR_INVALID_ARG` exactly when the slot is
occupied, `expected_type` is not the sentinel -1, and the stored type differs
from `expected_type`, and returns `ESP_OK` in every other case — for every
slot state, occupancy expectation, and expected type. -/
def ClaimC2Statement : Prop :=
  ∀ (s : CdcTable) (itf : Int) (slot : Option EspTusbCdc) (ei : Bool) (et : Int),
    slotRead s itf = some slot →
    ∃ r, cdc_obj_check s itf ei et = some r ∧
      (r = EspErr.ESP_ERR_INVALID_STATE ↔ slot.isSome ≠ ei) ∧
      (r = EspErr.ESP_ERR_INVALID_ARG ↔
        ∃ o, slot = some o ∧ et ≠ -1 ∧ o.type ≠ et) ∧
      (r = EspErr.ESP_OK ↔
        ¬(slot.isSome ≠ ei) ∧ ¬∃ o, slot = some o ∧ et ≠ -1 ∧ o.type ≠ et)

/-- C2 counterexample: the claim as stated is false.  With slot 0 occupied by
a `TUSB_CLASS_CDC` record, `expected_inited = false`, and
`expected_type = TUSB_CLASS_CDC_DATA`, the "InvalidArgument exactly when"
conditions all hold (occupied, a specific type expected, stored type differs),
yet the code returns `ESP_ERR_INVALID_STATE`: the occupancy check runs first
and takes precedence. -/
theorem C2_claim_counterexample : ¬ ClaimC2Statement := by
  intro hclaim
  obtain ⟨r, hr, _, hArg, _⟩ :=
    hclaim [some ⟨7, 2, 1, none⟩] 0 (some ⟨7, 2, 1, none⟩) false
      TUSB_CLASS_CDC_DATA (by decide)
  have hval : cdc_obj_check [some ⟨7, 2, 1, none⟩] 0 false TUSB_CLASS_CDC_DATA =
      some EspErr.ESP_ERR_INVALID_STATE := by decide
  rw [hval] at hr
  have hr' : r = EspErr.ESP_ERR_INVALID_STATE := (Option.some_inj.mp hr).symm
  subst hr'
  have : EspErr.ESP_ERR_INVALID_STATE = EspErr.ESP_ERR_INVALID_ARG :=
    hArg.mpr ⟨⟨7, 2, 1, none⟩, rfl, by decide, by decide⟩
  exact absurd this (by decide)

/-- C2 amended: for every slot state read in bounds, the gate is total and
pure, returns `ESP_ERR_INVALID_STATE` exactly when occupancy differs from
`expected_inited`, returns `ESP_ERR_INVALID_ARG` exactly when occupancy
matches `expected_inited`, the slot is occupied, `expected_type ≠ -1` and the
stored type differs (the occupancy check takes precedence), and `ESP_OK` in
every other case. -/
theorem C2_gate_characterization (s : CdcTable) (itf : Int)
    (slot : Option EspTusbCdc) (ei : Bool) (et : Int)
    (h : slotRead s itf = some slot) :
    ∃ r, cdc_obj_check s itf ei et = some r ∧
      (r = EspErr.ESP_ERR_INVALID_STATE ↔ slot.isSome ≠ ei) ∧
      (r = EspErr.ESP_ERR_INVALID_ARG ↔
        slot.isSome = ei ∧ ∃ o, slot = some o ∧ et ≠ -1 ∧ o.type ≠ et) ∧
      (r = EspErr.ESP_OK ↔
        slot.isSome = ei ∧ ∀ o, slot = some o → et ≠ -1 → o.type = et) := by
  rcases slot with _ | obj
  · cases ei
    · exact ⟨EspErr.ESP_OK, by simp [cdc_obj_check, h], by simp, by simp, by simp⟩
    · exact ⟨EspErr.ESP_ERR_INVALID_STATE, by simp [cdc_obj_check, h],
        by simp, by simp, by simp⟩
  · cases ei
    · exact ⟨EspErr.ESP_ERR_INVALID_STATE, by simp [cdc_obj_check, h],
        by simp, by simp, by simp⟩
    · by_cases hq : et ≠ -1 ∧ obj.type ≠ et
      · refine ⟨EspErr.ESP_ERR_INVALID_ARG, by simp [cdc_obj_check, h, hq], by simp, ?_, ?_⟩
        · simp [hq.1, hq.2]
        · simp [hq.1, hq.2]
      · have hq' : et ≠ -1 → obj.type = et := by
          intro h1
          by_contra h2
          exact hq ⟨h1, h2⟩
        refine ⟨EspErr.ESP_OK, by simp [cdc_obj_check, h, hq], by simp, ?_, ?_⟩
        · constructor
          · intro hfalse
            exact absurd hfalse (by simp)
          · rintro ⟨-, o, ho, h1, h2⟩
            cases ho
            exact absurd (hq' h1) h2
        · constructor
          · intro _
            refine ⟨rfl, ?_⟩
            rintro o ho h1
            cases ho
            exact hq' h1
          · intro _
            rfl

/-- Witness for the amended C2 at a concrete occupied slot, a matching
occupancy expectation, and a mismatched expected type. -/
theorem C2_gate_characterization_witness :
    ∃ r, cdc_obj_check [some ⟨7, 2, 1, none⟩] 0 true 10 = some r ∧
      (r = EspErr.ESP_ERR_INVALID_STATE ↔
        (some ⟨7, 2, 1, none⟩ : Option EspTusbCdc).isSome ≠ true) ∧
      (r = EspErr.ESP_ERR_INVALID_ARG ↔
        (some ⟨7, 2, 1, none⟩ : Option EspTusbCdc).isSome = true ∧
          ∃ o, (some ⟨7, 2, 1, none⟩ : Option EspTusbCdc) = some o ∧
            (10 : Int) ≠ -1 ∧ o.type ≠ 10) ∧
      (r = EspErr.ESP_OK ↔
        (some ⟨7, 2, 1, none⟩ : Option EspTusbCdc).isSome = true ∧
          ∀ o, (some ⟨7, 2, 1, none⟩ : Option EspTusbCdc) = some o →
            (10 : Int) ≠ -1 → o.type = 10) :=
  C2_gate_characterization [some ⟨7, 2, 1, none⟩] 0 (some ⟨7, 2, 1, none⟩)
    true 10 (by decide)

/-- C5: whenever Init(0, cfg) succeeds for a configuration of the spec's
configuration shape (class kind Communications or Data), slot 0 afterwards
holds a freshly allocated record whose stored class code equals the
configuration's class, whose subclass union value equals the configuration's,
whose device handle equals the configuration's, and whose `subclass_obj` is
still the NULL left by `calloc` — in particular the slot is Occupied. -/
theorem C5_init_success_populates_slot (allocOk : Bool) (s s' : CdcTable)
    (cfg : TinyusbConfigCdc)
    (hwf : cfg.cdc_class = TUSB_CLASS_CDC ∨ cfg.cdc_class = TUSB_CLASS_CDC_DATA)
    (h : tinyusb_cdc_init allocOk s 0 cfg = some (EspErr.ESP_OK, s')) :
    slotRead s' 0 =
      some (some { usb_dev := cfg.usb_dev, type := cfg.cdc_class,
                   cdc_subclass := cfg.cdc_subclass, subclass_obj := none }) := by
  rw [tinyusb_cdc_init_zero_spec] at h
  rcases h0 : s[0]? with _ | (_ | obj) <;> rw [h0] at h
  · exact absurd h (by simp)
  · have hlen : 0 < s.length := by
      rw [← slotRead_zero] at h0
      exact slotRead_length_pos h0
    cases allocOk with
    | false => simp at h
    | true =>
      simp only [if_true, Option.some_inj, Prod.mk.injEq, true_and] at h
      subst h
      rw [slotRead_zero, List.getElem?_set_self hlen]
      have htype : initObj cfg =
          { usb_dev := cfg.usb_dev, type := cfg.cdc_class,
            cdc_subclass := cfg.cdc_subclass, subclass_obj := none } := by
        rcases hwf with hwf | hwf <;> simp [initObj, hwf, TUSB_CLASS_CDC, TUSB_CLASS_CDC_DATA]
      rw [htype]
  · exact absurd h (by simp)

/-- Witness for C5 on a concrete successful Data-class init. -/
theorem C5_init_success_populates_slot_witness :
    slotRead [some ⟨7, 10, 0, none⟩] 0 =
      some (some { usb_dev := 7, type := 10, cdc_subclass := 0,
                   subclass_obj := none }) :=
  C5_init_success_populates_slot true [none] [some ⟨7, 10, 0, none⟩] ⟨7, 10, 0⟩
    (Or.inr rfl) (by decide)

/-- C6: starting from any table whose slot 0 is Empty, Init(0, comm-config)
succeeds, the following Deinit(0) succeeds, `tinyusb_cdc_initialized 0` is
then false, and a subsequent Init(0, data-config) succeeds: the slot is
reusable across class kinds after a full init/deinit cycle. -/
theorem C6_round_trip_reusable (s : CdcTable) (cfgC cfgD : TinyusbConfigCdc)
    (hC : cfgC.cdc_class = TUSB_CLASS_CDC)
    (_hD : cfgD.cdc_class = TUSB_CLASS_CDC_DATA)
    (h0 : slotRead s 0 = some none) :
    ∃ s1 s2 s3,
      tinyusb_cdc_init true s 0 cfgC = some (EspErr.ESP_OK, s1) ∧
        tinyusb_cdc_deinit s1 0 = some (EspErr.ESP_OK, s2) ∧
        tinyusb_cdc_initialized s2 0 = some false ∧
        tinyusb_cdc_init true s2 0 cfgD = some (EspErr.ESP_OK, s3) := by
  have hlen : 0 < s.length := slotRead_length_pos h0
  rw [slotRead_zero] at h0
  refine ⟨s.set 0 (some (initObj cfgC)), s.set 0 none,
    (s.set 0 none).set 0 (some (initObj cfgD)), ?_, ?_, ?_, ?_⟩
  · rw [tinyusb_cdc_init_zero_spec, h0]
    simp
  · rw [tinyusb_cdc_deinit_zero_spec, List.getElem?_set_self hlen]
    have ht : (initObj cfgC).type = TUSB_CLASS_CDC := by simp [initObj, hC]
    simp [ht, List.set_set]
  · rw [tinyusb_cdc_initialized, slotRead_zero,
      List.getElem?_set_self (by simpa using hlen)]
    rfl
  · rw [tinyusb_cdc_init_zero_spec, List.getElem?_set_self (by simpa using hlen)]
    simp

/-- Witness for C6 on a concrete one-slot table. -/
theorem C6_round_trip_reusable_witness :
    ∃ s1 s2 s3,
      tinyusb_cdc_init true [none] 0 ⟨7, 2, 1⟩ = some (EspErr.ESP_OK, s1) ∧
        tinyusb_cdc_deinit s1 0 = some (EspErr.ESP_OK, s2) ∧
        tinyusb_cdc_initialized s2 0 = some false ∧
        tinyusb_cdc_init true s2 0 ⟨3, 10, 0⟩ = some (EspErr.ESP_OK, s3) :=
  C6_round_trip_reusable [none] ⟨7, 2, 1⟩ ⟨3, 10, 0⟩ rfl rfl (by decide)

/-- C7: Deinit(0) on an Occupied slot takes no caller-supplied class hint and
selects its teardown path solely from the stored class code: a slot holding a
`TUSB_CLASS_CDC` record runs exactly the Communications teardown
(`tusb_cdc_deinit_comm`), a `TUSB_CLASS_CDC_DATA` record exactly the Data
teardown (`tusb_cdc_deinit_data`), and in both cases the call succeeds with
slot 0 reset to Empty. -/
theorem C7_deinit_dispatch_by_stored_type (s : CdcTable) (obj : EspTusbCdc)
    (h : slotRead s 0 = some (some obj)) :
    (obj.type = TUSB_CLASS_CDC →
      tinyusb_cdc_deinit s 0 = tusb_cdc_deinit_comm s 0 ∧
        tinyusb_cdc_deinit s 0 = some (EspErr.ESP_OK, s.set 0 none)) ∧
      (obj.type = TUSB_CLASS_CDC_DATA →
        tinyusb_cdc_deinit s 0 = tusb_cdc_deinit_data s 0 ∧
          tinyusb_cdc_deinit s 0 = some (EspErr.ESP_OK, s.set 0 none)) ∧
      slotRead (s.set 0 none) 0 = some none := by
  have hlen : 0 < s.length := slotRead_length_pos h
  rw [slotRead_zero] at h
  refine ⟨?_, ?_, ?_⟩
  · intro ht
    have hpath : tusb_cdc_deinit_comm s 0 = some (EspErr.ESP_OK, s.set 0 none) := by
      simp [tusb_cdc_deinit_comm, cdc_obj_check, slotRead, slotWrite, h, ht, hlen,
        TUSB_CLASS_CDC]
    rw [tinyusb_cdc_deinit_zero_spec, h]
    simp [ht, hpath]
  · intro ht
    have hpath : tusb_cdc_deinit_data s 0 = some (EspErr.ESP_OK, s.set 0 none) := by
      simp [tusb_cdc_deinit_data, cdc_obj_check, slotRead, slotWrite, h, ht, hlen,
        TUSB_CLASS_CDC_DATA]
    rw [tinyusb_cdc_deinit_zero_spec, h]
    simp [ht, hpath]
  · rw [slotRead_zero, List.getElem?_set_self (by simpa using hlen)]

/-- Witness for C7 on a concrete Communications-class slot. -/
theorem C7_deinit_dispatch_by_stored_type_witness :
    ((⟨7, 2, 1, none⟩ : EspTusbCdc).type = TUSB_CLASS_CDC →
      tinyusb_cdc_deinit [some ⟨7, 2, 1, none⟩] 0 =
          tusb_cdc_deinit_comm [some ⟨7, 2, 1, none⟩] 0 ∧
        tinyusb_cdc_deinit [some ⟨7, 2, 1, none⟩] 0 =
          some (EspErr.ESP_OK, List.set [some ⟨7, 2, 1, none⟩] 0 none)) ∧
      ((⟨7, 2, 1, none⟩ : EspTusbCdc).type = TUSB_CLASS_CDC_DATA →
        tinyusb_cdc_deinit [some ⟨7, 2, 1, none⟩] 0 =
            tusb_cdc_deinit_data [some ⟨7, 2, 1, none⟩] 0 ∧
          tinyusb_cdc_deinit [some ⟨7, 2, 1, none⟩] 0 =
            some (EspErr.ESP_OK, List.set [some ⟨7, 2, 1, none⟩] 0 none)) ∧
      slotRead (List.set [some ⟨7, 2, 1, none⟩] 0 none) 0 = some none :=
  C7_deinit_dispatch_by_stored_type [some ⟨7, 2, 1, none⟩] ⟨7, 2, 1, none⟩
    (by decide)

/-- One call of the module's external interface: an Init (with its allocation
outcome), a Deinit, an `is_initialized` query, or a GetInterface query. -/
inductive CdcCall where
  | init (allocOk : Bool) (itf : Int) (cfg : TinyusbConfigCdc)
  | deinit (itf : Int)
  | query (itf : Int)
  | get (itf : Int)

/-- Effect of one call on the global table: `some` of the table afterwards
when the call is defined, `none` when it runs into undefined behavior (no
successor state).  Queries never change the table. -/
def cdcCallStep (s : CdcTable) : CdcCall → Option CdcTable
  | CdcCall.init a itf cfg => (tinyusb_cdc_init a s itf cfg).map Prod.snd
  | CdcCall.deinit itf => (tinyusb_cdc_deinit s itf).map Prod.snd
  | CdcCall.query itf => (tinyusb_cdc_initialized s itf).map fun _ => s
  | CdcCall.get itf => (tinyusb_cdc_get_intf s itf).map fun _ => s

/-- Tables reachable from an all-Empty table (of any capacity) by any
sequence of defined calls. -/
inductive CdcReachable : CdcTable → Prop where
  | start (n : Nat) : CdcReachable (List.replicate n none)
  | step {s s' : CdcTable} (c : CdcCall) :
      CdcReachable s → cdcCallStep s c = some s' → CdcReachable s'

/-- Every Occupied slot of the table stores one of the two recognized CDC
class codes. -/
def WellTypedTable (s : CdcTable) : Prop :=
  ∀ (i : Nat) (obj : EspTusbCdc), s[i]? = some (some obj) →
    obj.type = TUSB_CLASS_CDC ∨ obj.type = TUSB_CLASS_CDC_DATA

theorem wellTypedTable_replicate (n : Nat) :
    WellTypedTable (List.replicate n none) := by
  intro i obj h
  rw [List.getElem?_replicate] at h
  split at h <;> simp_all

theorem wellTypedTable_set_none {s : CdcTable} (hs : WellTypedTable s) (i : Nat) :
    WellTypedTable (s.set i none) := by
  intro j obj h
  rw [List.getElem?_set] at h
  split at h
  · split at h <;> simp_all
  · exact hs j obj h

theorem wellTypedTable_set_obj {s : CdcTable} (hs : WellTypedTable s) (i : Nat)
    {v : EspTusbCdc} (hv : v.type = TUSB_CLASS_CDC ∨ v.type = TUSB_CLASS_CDC_DATA) :
    WellTypedTable (s.set i (some v)) := by
  intro j obj h
  rw [List.getElem?_set] at h
  split at h
  · split at h
    · cases Option.some_inj.mp h
      exact hv
    · simp_all
  · exact hs j obj h

theorem tinyusb_cdc_deinit_zero_undef_oob {s : CdcTable} (h0 : s[0]? = none) :
    tinyusb_cdc_deinit s 0 = none := by
  rw [tinyusb_cdc_deinit_zero_spec, h0]

theorem tinyusb_cdc_deinit_zero_undef_empty {s : CdcTable}
    (h0 : s[0]? = some none) : tinyusb_cdc_deinit s 0 = none := by
  rw [tinyusb_cdc_deinit_zero_spec, h0]

theorem tinyusb_cdc_deinit_zero_occupied {s : CdcTable} {obj : EspTusbCdc}
    (h0 : s[0]? = some (some obj)) :
    tinyusb_cdc_deinit s 0 =
      if obj.type = TUSB_CLASS_CDC ∨ obj.type = TUSB_CLASS_CDC_DATA
      then some (EspErr.ESP_OK, s.set 0 none)
      else some (EspErr.ESP_ERR_INVALID_ARG, s) := by
  rw [tinyusb_cdc_deinit_zero_spec, h0]

theorem wellTypedTable_step {s s' : CdcTable} (c : CdcCall)
    (hs : WellTypedTable s) (h : cdcCallStep s c = some s') : WellTypedTable s' := by
  cases c with
  | init a itf cfg =>
    rw [cdcCallStep] at h
    by_cases hitf : itf = 0
    · subst hitf
      rw [tinyusb_cdc_init_zero_spec] at h
      rcases h0 : s[0]? with _ | (_ | obj) <;> rw [h0] at h
      · simp at h
      · cases a with
        | false =>
          simp at h
          rw [← h]
          exact wellTypedTable_set_none hs 0
        | true =>
          simp at h
          rw [← h]
          refine wellTypedTable_set_obj hs 0 ?_
          by_cases hc : cfg.cdc_class = TUSB_CLASS_CDC <;> simp [initObj, hc]
      · simp at h
        rw [← h]
        exact hs
    · rw [tinyusb_cdc_init_ne_zero a s cfg hitf] at h
      simp at h
      rw [← h]
      exact hs
  | deinit itf =>
    rw [cdcCallStep] at h
    by_cases hitf : itf = 0
    · subst hitf
      rcases h0 : s[0]? with _ | (_ | obj)
      · rw [tinyusb_cdc_deinit_zero_undef_oob h0] at h
        simp at h
      · rw [tinyusb_cdc_deinit_zero_undef_empty h0] at h
        simp at h
      · rw [tinyusb_cdc_deinit_zero_occupied h0] at h
        by_cases hrec : obj.type = TUSB_CLASS_CDC ∨ obj.type = TUSB_CLASS_CDC_DATA
        · rw [if_pos hrec] at h
          simp at h
          rw [← h]
          exact wellTypedTable_set_none hs 0
        · rw [if_neg hrec] at h
          simp at h
          rw [← h]
          exact hs
    · rw [tinyusb_cdc_deinit_ne_zero s hitf] at h
      simp at h
      rw [← h]
      exact hs
  | query itf =>
    rw [cdcCallStep] at h
    rcases hq : tinyusb_cdc_initialized s itf with _ | b <;> rw [hq] at h <;> simp at h
    rw [← h]
    exact hs
  | get itf =>
    rw [cdcCallStep] at h
    rcases hq : tinyusb_cdc_get_intf s itf with _ | p <;> rw [hq] at h <;> simp at h
    rw [← h]
    exact hs

/-- C9: in every table reachable from an all-Empty table through any sequence
of Init, Deinit, `is_initialized`, and GetInterface calls, each Occupied slot
stores either `TUSB_CLASS_CDC` or `TUSB_CLASS_CDC_DATA`; consequently, when
slot 0 of a reachable table is Occupied, Deinit(0) never takes the branch
returning `ESP_ERR_INVALID_ARG` for an unrecognized stored class code. -/
theorem C9_reachable_types_recognized (s : CdcTable) (hreach : CdcReachable s) :
    WellTypedTable s ∧
      (∀ obj, s[0]? = some (some obj) →
        ∀ r, tinyusb_cdc_deinit s 0 = some r → r.1 ≠ EspErr.ESP_ERR_INVALID_ARG) := by
  have hwt : WellTypedTable s := by
    induction hreach with
    | start n => exact wellTypedTable_replicate n
    | step c _ hstep ih => exact wellTypedTable_step c ih hstep
  refine ⟨hwt, ?_⟩
  intro obj h0 r hr
  have htype := hwt 0 obj h0
  rw [tinyusb_cdc_deinit_zero_occupied h0, if_pos htype] at hr
  rw [← Option.some_inj.mp hr]
  simp

/-- Witness for C9 at a table reached by one successful Communications init
from the all-Empty one-slot table. -/
theorem C9_reachable_types_recognized_witness :
    WellTypedTable [some ⟨7, 2, 1, none⟩] ∧
      (∀ obj, ([some ⟨7, 2, 1, none⟩] : CdcTable)[0]? = some (some obj) →
        ∀ r, tinyusb_cdc_deinit [some ⟨7, 2, 1, none⟩] 0 = some r →
          r.1 ≠ EspErr.ESP_ERR_INVALID_ARG) :=
  C9_reachable_types_recognized [some ⟨7, 2, 1, none⟩]
    (CdcReachable.step (CdcCall.init true 0 ⟨7, 2, 1⟩) (CdcReachable.start 1)
      (by decide))

example : tinyusb_cdc_init true [none] 0 ⟨7, 2, 1⟩ =
    some (EspErr.ESP_OK, [some ⟨7, 2, 1, none⟩]) := by decide

example : tinyusb_cdc_deinit [some ⟨7, 2, 1, none⟩] 0 =
    some (EspErr.ESP_OK, [none]) := by decide

example : tinyusb_cdc_deinit [none] 0 = none := by decide

example : tinyusb_cdc_init true [some ⟨7, 2, 1, none⟩] 0 ⟨3, 10, 0⟩ =
    some (EspErr.ESP_ERR_INVALID_STATE, [some ⟨7, 2, 1, none⟩]) := by decide

example : tinyusb_cdc_get_intf [some ⟨7, 2, 1, none⟩] 0 =
    some (some ⟨7, 2, 1, none⟩) := by decide

example : tinyusb_cdc_get_intf [none] 0 = some none := by decide

example : tinyusb_cdc_initialized [none] 1 = none := by decide

example : tinyusb_cdc_init false [none] 0 ⟨7, 2, 1⟩ =
    some (EspErr.ESP_FAIL, [none]) := by decide

example : tinyusb_cdc_init true [none] 0 ⟨7, 3, 1⟩ =
    some (EspErr.ESP_OK, [some ⟨7, 10, 1, none⟩]) := by decide
